import Mathlib

/-!
Verification development for the StreamFX video-denoising filter
(src/source/filters/filter-video-denoising.cpp).

The C++ code is shallowly embedded: machine integers become naturals,
the double-precision arithmetic of the size policy is modelled exactly
over the rationals, fallible vendor calls are driven by boolean oracles
and return Except values, and the mutable instance is explicit state.
-/

set_option maxRecDepth 8192

namespace VideoDenoising

/-- Modelled from the spec: the denoise_provider enumeration is declared in
filter-video-denoising.hpp, which is not under src/.  The settings schema
gives the underlying integers: 0 = Automatic.  Arbitrary integers occur via
static_cast from obs_data_get_int (src 112). -/
def AUTOMATIC : Int := 0

/-- Modelled from the spec: 1 = NvidiaVideoNoiseRemoval in the settings
schema; the only compiled-in real provider (src 51-53). -/
def NVIDIA_VIDEO_NOISE_REMOVAL : Int := 1

/-- std::clamp for lo ≤ hi (src 364 and 370). -/
def clampNat (v lo hi : Nat) : Nat := max lo (min v hi)

/-- resize_nvidia_noise_removal (src 353-374), with the double-precision
aspect-ratio computation idealized as exact rational arithmetic.  C's round
rounds half away from zero, which on the nonnegative values occurring here
agrees with Mathlib's round (half up).  The idealization differs from the
machine computation only where the binary64 quotient-and-product lands on
the other side of a half-integer tie; resize_nvidia_noise_removal_fp below
models the binary64 arithmetic itself, and the tie divergence is settled
under claim C3.  The range/aspect and idempotence results are stated over
this idealization. -/
def resize_nvidia_noise_removal (x y : Nat) : Nat × Nat :=
  if y < x then
    -- Dominant Width (src 361-366)
    let ar : ℚ := (y : ℚ) / (x : ℚ)
    let rx : Nat := clampNat x 142 1920
    let ry : Nat := (round ((rx : ℚ) * ar)).toNat
    (rx, ry)
  else
    -- Dominant Height (src 367-373)
    let ar : ℚ := (x : ℚ) / (y : ℚ)
    let ry : Nat := clampNat y 80 1080
    let rx : Nat := (round ((ry : ℚ) * ar)).toNat
    (rx, ry)

/-- The per-provider size restriction as dispatched by video_render
(src 162-173): the NVIDIA provider uses resize_nvidia_noise_removal,
every other provider keeps the upstream size. -/
def size_policy (p : Int) (w h : Nat) : Nat × Nat :=
  if p = NVIDIA_VIDEO_NOISE_REMOVAL then resize_nvidia_noise_removal w h else (w, h)

/-- Rounded division of naturals, half up: (2a + b) / (2b) at b ≠ 0 equals
round (a / b) of the exact quotient.  Used only to evaluate the policy on
concrete inputs. -/
def natRoundDiv (a b : Nat) : Nat := (2 * a + b) / (2 * b)

theorem round_natDiv_toNat (a b : Nat) (hb : 0 < b) :
    (round ((a : ℚ) / (b : ℚ))).toNat = natRoundDiv a b := by
  have hbq : ((b : ℚ)) ≠ 0 := by
    exact_mod_cast Nat.pos_iff_ne_zero.mp hb
  have h2bq : ((2 * b : Nat) : ℚ) ≠ 0 := by
    push_cast
    positivity
  have hrw : (a : ℚ) / (b : ℚ) + 1 / 2 = ((2 * a + b : Nat) : ℚ) / ((2 * b : Nat) : ℚ) := by
    push_cast
    field_simp
    ring
  rw [round_eq, hrw, Int.floor_toNat, Nat.floor_div_eq_div]
  rfl

theorem resize_eval (x y : Nat) (hx : 0 < x) (hy : 0 < y) :
    resize_nvidia_noise_removal x y =
      if y < x then
        (clampNat x 142 1920, natRoundDiv (clampNat x 142 1920 * y) x)
      else
        (natRoundDiv (clampNat y 80 1080 * x) y, clampNat y 80 1080) := by
  unfold resize_nvidia_noise_removal
  split <;> dsimp only
  · have : ((clampNat x 142 1920 : ℚ)) * ((y : ℚ) / (x : ℚ))
        = ((clampNat x 142 1920 * y : Nat) : ℚ) / (x : ℚ) := by
      push_cast
      ring
    rw [this, round_natDiv_toNat _ _ hx]
  · have : ((clampNat y 80 1080 : ℚ)) * ((x : ℚ) / (y : ℚ))
        = ((clampNat y 80 1080 * x : Nat) : ℚ) / (y : ℚ) := by
      push_cast
      ring
    rw [this, round_natDiv_toNat _ _ hy]

/-! Basic facts about the clamp and the rational rounding. -/

theorem le_clampNat (v lo hi : Nat) : lo ≤ clampNat v lo hi := le_max_left _ _

theorem clampNat_le (v lo hi : Nat) (h : lo ≤ hi) : clampNat v lo hi ≤ hi :=
  max_le h (min_le_right _ _)

theorem clampNat_eq_self (v lo hi : Nat) (h1 : lo ≤ v) (h2 : v ≤ hi) :
    clampNat v lo hi = v := by
  unfold clampNat
  rw [min_eq_left h2, max_eq_right h1]

theorem round_nonneg_q (q : ℚ) (h : 0 ≤ q) : 0 ≤ round q := by
  rw [round_eq]
  exact Int.floor_nonneg.mpr (by linarith)

theorem round_le_natCast (q : ℚ) (n : Nat) (h : q ≤ (n : ℚ)) : round q ≤ (n : ℤ) := by
  rw [round_eq]
  have h2 : q + 1 / 2 ≤ (n : ℚ) + 1 / 2 := by linarith
  calc ⌊q + 1 / 2⌋ ≤ ⌊(n : ℚ) + 1 / 2⌋ := Int.floor_le_floor h2
    _ = (n : ℤ) := by
        rw [add_comm ((n : ℚ)) (1 / 2), Int.floor_add_nat]
        norm_num [Int.floor_eq_zero_iff, Set.mem_Ico]

theorem round_mul_div_self (c r : Nat) (hc : 0 < c) :
    (round ((c : ℚ) * ((r : ℚ) / (c : ℚ)))).toNat = r := by
  have hcq : ((c : ℚ)) ≠ 0 := by
    exact_mod_cast Nat.pos_iff_ne_zero.mp hc
  rw [← mul_div_assoc, mul_div_cancel_left₀ _ hcq, round_natCast]
  exact Int.toNat_natCast r

/-- The rounded coordinate deviates from the exact aspect-scaled value by at most
1/2, hence the normalized ratio by at most 1/(2c). -/
theorem round_ratio_bound (c a b : Nat) (hb : 0 < b) (hc : 0 < c) :
    |(((round ((c : ℚ) * ((a : ℚ) / (b : ℚ)))).toNat : ℚ)) / (c : ℚ) - (a : ℚ) / (b : ℚ)|
      ≤ 1 / (2 * (c : ℚ)) := by
  set q : ℚ := (c : ℚ) * ((a : ℚ) / (b : ℚ)) with hq
  have hq0 : (0 : ℚ) ≤ q := by
    rw [hq]
    positivity
  have hcq : (0 : ℚ) < (c : ℚ) := by exact_mod_cast hc
  have hcast : (((round q).toNat : ℚ)) = ((round q : ℤ) : ℚ) := by
    exact_mod_cast Int.toNat_of_nonneg (round_nonneg_q q hq0)
  have hab : (a : ℚ) / (b : ℚ) = q / (c : ℚ) := by
    rw [hq, mul_div_cancel_left₀ _ (ne_of_gt hcq)]
  rw [hcast, hab, div_sub_div_same, abs_div, abs_of_pos hcq]
  have h1 : |((round q : ℤ) : ℚ) - q| ≤ 1 / 2 := by
    rw [abs_sub_comm]
    exact abs_sub_round q
  calc |((round q : ℤ) : ℚ) - q| / (c : ℚ) ≤ (1 / 2) / (c : ℚ) := by gcongr
    _ = 1 / (2 * (c : ℚ)) := by rw [div_div]

/-- Branch lemma: dominant width (src 361-366). -/
theorem resize_width (x y : Nat) (h : y < x) :
    resize_nvidia_noise_removal x y =
      (clampNat x 142 1920,
        (round ((clampNat x 142 1920 : ℚ) * ((y : ℚ) / (x : ℚ)))).toNat) := by
  unfold resize_nvidia_noise_removal
  rw [if_pos h]

/-- Branch lemma: dominant height (src 367-373). -/
theorem resize_height (x y : Nat) (h : ¬ y < x) :
    resize_nvidia_noise_removal x y =
      ((round ((clampNat y 80 1080 : ℚ) * ((x : ℚ) / (y : ℚ)))).toNat,
        clampNat y 80 1080) := by
  unfold resize_nvidia_noise_removal
  rw [if_neg h]

/-- In the dominant-width branch the rounded height can only equal the clamped
width when the width was clamped down to 1920. -/
theorem round_fixed_imp (w h rx : Nat) (hh : 1 ≤ h) (hlt : h < w)
    (hrx : rx = clampNat w 142 1920)
    (heq : (round ((rx : ℚ) * ((h : ℚ) / (w : ℚ)))).toNat = rx) : rx = 1920 := by
  have hw0 : 0 < w := by omega
  have h142 : 142 ≤ rx := hrx ▸ le_clampNat _ _ _
  set q : ℚ := (rx : ℚ) * ((h : ℚ) / (w : ℚ)) with hqdef
  have hq0 : (0 : ℚ) ≤ q := by
    rw [hqdef]
    positivity
  have hnn := round_nonneg_q q hq0
  have hround : round q = (rx : ℤ) := by omega
  have habs := abs_sub_round q
  rw [hround] at habs
  have hsub : (rx : ℚ) - q ≤ 1 / 2 := by
    have h2 := abs_le.mp habs
    push_cast at h2
    linarith [h2.1]
  have hwq : (0 : ℚ) < (w : ℚ) := by exact_mod_cast hw0
  have hkey : 2 * rx * (w - h) ≤ w := by
    have hq2 : q = (rx : ℚ) * (h : ℚ) / (w : ℚ) := by rw [hqdef, mul_div_assoc]
    have h2 : ((rx : ℚ) - (rx : ℚ) * (h : ℚ) / (w : ℚ)) * (w : ℚ) ≤ (1 / 2) * (w : ℚ) := by
      apply mul_le_mul_of_nonneg_right _ hwq.le
      rw [← hq2]
      exact hsub
    have h3 : ((rx : ℚ) - (rx : ℚ) * (h : ℚ) / (w : ℚ)) * (w : ℚ)
        = (rx : ℚ) * (w : ℚ) - (rx : ℚ) * (h : ℚ) := by
      field_simp
    have h4 : ((2 * rx * (w - h) : ℕ) : ℚ) ≤ ((w : ℕ) : ℚ) := by
      push_cast [Nat.cast_sub hlt.le]
      nlinarith [h2, h3]
    exact_mod_cast h4
  have h1le : 1 ≤ w - h := by omega
  have h2rx : 2 * rx ≤ w := by
    calc 2 * rx = 2 * rx * 1 := by ring
      _ ≤ 2 * rx * (w - h) := Nat.mul_le_mul_left _ h1le
      _ ≤ w := hkey
  subst hrx
  unfold clampNat at h142 h2rx ⊢
  rcases le_total w 1920 with hcase | hcase
  · rw [min_eq_left hcase] at h2rx ⊢
    rcases le_total 142 w with hc2 | hc2
    · rw [max_eq_right hc2] at h2rx ⊢
      omega
    · rw [max_eq_left hc2] at h2rx ⊢
      omega
  · rw [min_eq_right hcase] at h2rx ⊢
    norm_num

/-- resize_nvidia_noise_removal maps its own output to itself, except when the
output is the square (1920, 1920). -/
theorem resize_idem (w h : Nat) (hw : 1 ≤ w) (hh : 1 ≤ h)
    (hne : resize_nvidia_noise_removal w h ≠ (1920, 1920)) :
    resize_nvidia_noise_removal (resize_nvidia_noise_removal w h).1
      (resize_nvidia_noise_removal w h).2 = resize_nvidia_noise_removal w h := by
  by_cases hb : h < w
  · rw [resize_width w h hb]
    dsimp only
    set rx := clampNat w 142 1920 with hrxdef
    set q : ℚ := (rx : ℚ) * ((h : ℚ) / (w : ℚ)) with hqdef
    set ry := (round q).toNat with hrydef
    have hw0 : 0 < w := by omega
    have h142 : 142 ≤ rx := hrxdef ▸ le_clampNat _ _ _
    have h1920 : rx ≤ 1920 := hrxdef ▸ clampNat_le _ _ _ (by norm_num)
    have hrx0 : 0 < rx := by omega
    have hqle : q ≤ (rx : ℚ) := by
      rw [hqdef]
      have hhw : (h : ℚ) / (w : ℚ) ≤ 1 := by
        rw [div_le_one (by exact_mod_cast hw0)]
        exact_mod_cast hb.le
      nlinarith [show (0 : ℚ) ≤ (rx : ℚ) from by positivity]
    have hryle : ry ≤ rx := by
      rw [hrydef]
      exact Int.toNat_le.mpr (round_le_natCast q rx hqle)
    rcases Nat.lt_or_ge ry rx with hlt2 | hge2
    · rw [resize_width rx ry hlt2, clampNat_eq_self rx 142 1920 h142 h1920,
        round_mul_div_self rx ry hrx0]
    · exfalso
      apply hne
      have hrr : ry = rx := le_antisymm hryle hge2
      have hfix : rx = 1920 := by
        apply round_fixed_imp w h rx hh hb hrxdef
        rw [← hqdef, ← hrydef]
        exact hrr
      rw [resize_width w h hb, ← hrxdef, ← hqdef, ← hrydef, hrr, hfix]
  · rw [resize_height w h hb]
    dsimp only
    set ry := clampNat h 80 1080 with hrydef
    set q : ℚ := (ry : ℚ) * ((w : ℚ) / (h : ℚ)) with hqdef
    set rx := (round q).toNat with hrxdef
    have hh0 : 0 < h := hh
    have h80 : 80 ≤ ry := hrydef ▸ le_clampNat _ _ _
    have h1080 : ry ≤ 1080 := hrydef ▸ clampNat_le _ _ _ (by norm_num)
    have hry0 : 0 < ry := by omega
    have hqle : q ≤ (ry : ℚ) := by
      rw [hqdef]
      have hwh : (w : ℚ) / (h : ℚ) ≤ 1 := by
        rw [div_le_one (by exact_mod_cast hh0)]
        exact_mod_cast not_lt.mp hb
      nlinarith [show (0 : ℚ) ≤ (ry : ℚ) from by positivity]
    have hrxle : rx ≤ ry := by
      rw [hrxdef]
      exact Int.toNat_le.mpr (round_le_natCast q ry hqle)
    have hnotlt : ¬ ry < rx := not_lt.mpr hrxle
    rw [resize_height rx ry hnotlt, clampNat_eq_self ry 80 1080 h80 h1080,
      round_mul_div_self ry rx hry0]

/-! ### Claim C3

The claim asserts an exact match between the size policy and the spec's
rational formula.  The code (src 353-374) evaluates the formula in IEEE-754
binary64 (double) arithmetic: `ar = (double)y / (double)x` rounds the
quotient to the nearest double, and `(double)rx * ar` rounds the product
again, so the value handed to round() can land on the other side of a
half-integer tie of the exact formula.  The definitions below model that
binary64 arithmetic faithfully (round to nearest, ties to even, operands in
the normal range, as they are for the program's uint32 dimensions). -/

/-- Fuel-driven binary logarithm, structurally recursive so that it
evaluates inside the kernel.  With fuel 600 it computes the floor base-2
logarithm of every positive argument below 2^600, far beyond anything the
uint32-dimension pipeline of the source can produce. -/
def log2fuel : Nat → Nat → Nat
  | 0, _ => 0
  | fuel + 1, n => if n ≤ 1 then 0 else log2fuel fuel (n / 2) + 1

def natLog2 (n : Nat) : Nat := log2fuel 600 n

/-- Round the fraction a / b to the nearest integer, ties to even — the
IEEE-754 rounding of a positive quotient to an integer significand. -/
def rneNat (a b : Nat) : Nat :=
  let q := a / b
  let r := a % b
  if 2 * r < b then q
  else if b < 2 * r then q + 1
  else if q % 2 = 0 then q else q + 1

/-- Round the fraction a / b to the nearest integer, halves away from
zero — C's round() on a positive value. -/
def rhaNat (a b : Nat) : Nat :=
  let q := a / b
  let r := a % b
  if b ≤ 2 * r then q + 1 else q

/-- The binary64 value of the quotient a / b (round to nearest, ties to
even), as a pair m·2^e with 2^52 ≤ m ≤ 2^53: the result of
`(double)a / (double)b` for exactly representable positive operands in the
normal range. -/
def flDiv (a b : Nat) : Nat × Int :=
  let e : Int := (natLog2 (a * 2 ^ 200 / b) : Int) - 200
  let s : Int := 52 - e
  let m : Nat := if 0 ≤ s then rneNat (a * 2 ^ s.toNat) b else rneNat a (b * 2 ^ (-s).toNat)
  (m, e - 52)

/-- The binary64 product of the exactly representable natural c with the
double m·2^e: `(double)c * ar`.  A product of at most 53 significant bits
is exact; a wider one is rounded to nearest, ties to even. -/
def flScale (c : Nat) (d : Nat × Int) : Nat × Int :=
  let t := c * d.1
  let e2 := natLog2 t
  if e2 ≤ 52 then (t, d.2)
  else (rneNat t (2 ^ (e2 - 52)), d.2 + (e2 - 52))

/-- C's round() of the positive double m·2^e followed by the integer cast
(src 365/371): exact when the exponent is nonnegative, halves away from
zero otherwise. -/
def roundAwayPos (d : Nat × Int) : Nat :=
  if 0 ≤ d.2 then d.1 * 2 ^ d.2.toNat
  else rhaNat d.1 (2 ^ (-d.2).toNat)

/-- resize_nvidia_noise_removal (src 353-374) with the double-precision
arithmetic modelled faithfully: the aspect ratio is the rounded binary64
quotient, the product with the clamped coordinate is rounded again, and
round() is applied to the resulting double. -/
def resize_nvidia_noise_removal_fp (x y : Nat) : Nat × Nat :=
  if y < x then
    -- Dominant Width (src 361-366)
    let ar := flDiv y x
    let rx := clampNat x 142 1920
    let ry := roundAwayPos (flScale rx ar)
    (rx, ry)
  else
    -- Dominant Height (src 367-373)
    let ar := flDiv x y
    let ry := clampNat y 80 1080
    let rx := roundAwayPos (flScale ry ar)
    (rx, ry)

/-- The per-provider size restriction of video_render (src 162-173) over
the faithful binary64 model of the NVIDIA resize. -/
def size_policy_fp (p : Int) (w h : Nat) : Nat × Nat :=
  if p = NVIDIA_VIDEO_NOISE_REMOVAL then resize_nvidia_noise_removal_fp w h else (w, h)

/-- Modelled from the spec (section 4.2): the size-policy formula in the
spec's own wording — for the NVIDIA provider, if width > height the width
is clamped to [142, 1920] and the height is round(clamped_width × height /
width); otherwise the height is clamped to [80, 1080] and the width is
round(clamped_height × width / height); every other provider is the
identity.  To be compared against the source embeddings. -/
def size_policy_spec (p : Int) (w h : Nat) : Nat × Nat :=
  if p = NVIDIA_VIDEO_NOISE_REMOVAL then
    if h < w then
      let cw := clampNat w 142 1920
      (cw, (round ((cw : ℚ) * (h : ℚ) / (w : ℚ))).toNat)
    else
      let ch := clampNat h 80 1080
      ((round ((ch : ℚ) * (w : ℚ) / (h : ℚ))).toNat, ch)
  else (w, h)

/-- The rational idealization of the resize matches the spec formula
exactly; used to evaluate the spec formula on concrete inputs. -/
theorem size_policy_idealized_matches_spec_formula :
    (∀ p : Int, ∀ w h : Nat, 1 ≤ w → 1 ≤ h → size_policy p w h = size_policy_spec p w h)
    ∧ (∀ p : Int, p ≠ NVIDIA_VIDEO_NOISE_REMOVAL → ∀ w h : Nat, size_policy p w h = (w, h)) := by
  refine ⟨?_, ?_⟩
  · intro p w h hw hh
    unfold size_policy size_policy_spec resize_nvidia_noise_removal
    split
    · split <;> dsimp only <;> rw [mul_div_assoc]
    · rfl
  · intro p hp w h
    rw [size_policy, if_neg hp]

/-- Claim C3 as stated is false of the program: at (3840, 965) the exact
formula gives round(1920·965/3840) = round(482.5) = 483, but the code's
double computation gives 1920·fl(965/3840), which is just below the tie
(482.49999999999994), so the code returns (1920, 482). -/
theorem size_policy_double_tie_counterexample :
    size_policy_fp NVIDIA_VIDEO_NOISE_REMOVAL 3840 965 = (1920, 482)
    ∧ size_policy_spec NVIDIA_VIDEO_NOISE_REMOVAL 3840 965 = (1920, 483)
    ∧ size_policy_fp NVIDIA_VIDEO_NOISE_REMOVAL 3840 965
        ≠ size_policy_spec NVIDIA_VIDEO_NOISE_REMOVAL 3840 965 := by
  have hfp : size_policy_fp NVIDIA_VIDEO_NOISE_REMOVAL 3840 965 = (1920, 482) := by
    decide
  have hspec : size_policy_spec NVIDIA_VIDEO_NOISE_REMOVAL 3840 965 = (1920, 483) := by
    rw [← size_policy_idealized_matches_spec_formula.1 NVIDIA_VIDEO_NOISE_REMOVAL
      3840 965 (by norm_num) (by norm_num)]
    rw [size_policy, if_pos rfl, resize_eval 3840 965 (by norm_num) (by norm_num)]
    decide
  refine ⟨hfp, hspec, ?_⟩
  rw [hfp, hspec]
  decide

/-- Claim C3, amended: the code evaluates the spec's formula in double
precision — the dominant coordinate is exactly the spec's clamp, and the
other coordinate is round() of the twice-rounded binary64 product, which
can differ from the exact formula at half-integer ties (see the
counterexample).  The spec's two literal examples, whose products are
exactly representable, hold of the double computation —
size_policy(1, 3840, 2160) = (1920, 1080) and size_policy(1, 80, 40) =
(142, 71) — and every other provider is the identity. -/
theorem size_policy_fp_matches_spec_on_dominant_axis :
    (∀ p : Int, p ≠ NVIDIA_VIDEO_NOISE_REMOVAL → ∀ w h : Nat, size_policy_fp p w h = (w, h))
    ∧ size_policy_fp NVIDIA_VIDEO_NOISE_REMOVAL 3840 2160 = (1920, 1080)
    ∧ size_policy_fp NVIDIA_VIDEO_NOISE_REMOVAL 80 40 = (142, 71)
    ∧ (∀ w h : Nat,
        (h < w →
          (size_policy_fp NVIDIA_VIDEO_NOISE_REMOVAL w h).1 = clampNat w 142 1920
          ∧ (size_policy_spec NVIDIA_VIDEO_NOISE_REMOVAL w h).1 = clampNat w 142 1920)
        ∧ (¬ h < w →
          (size_policy_fp NVIDIA_VIDEO_NOISE_REMOVAL w h).2 = clampNat h 80 1080
          ∧ (size_policy_spec NVIDIA_VIDEO_NOISE_REMOVAL w h).2 = clampNat h 80 1080)) := by
  refine ⟨?_, by decide, by decide, ?_⟩
  · intro p hp w h
    rw [size_policy_fp, if_neg hp]
  · intro w h
    constructor
    · intro hlt
      constructor
      · rw [size_policy_fp, if_pos rfl]
        unfold resize_nvidia_noise_removal_fp
        rw [if_pos hlt]
      · unfold size_policy_spec
        rw [if_pos rfl, if_pos hlt]
    · intro hge
      constructor
      · rw [size_policy_fp, if_pos rfl]
        unfold resize_nvidia_noise_removal_fp
        rw [if_neg hge]
      · unfold size_policy_spec
        rw [if_pos rfl, if_neg hge]

theorem size_policy_fp_matches_spec_on_dominant_axis_witness :
    size_policy_fp 7 640 480 = (640, 480)
    ∧ (size_policy_fp 1 1920 1080).1 = clampNat 1920 142 1920 :=
  ⟨size_policy_fp_matches_spec_on_dominant_axis.1 7 (by decide) 640 480,
    ((size_policy_fp_matches_spec_on_dominant_axis.2.2.2 1920 1080).1
      (by norm_num)).1⟩

/-! ### Claim C4 -/

/-- Claim C4 as stated is false at (width, height) = (10000, 1): the NVIDIA
size policy returns (1920, 0), whose second component is not ≥ 1 (and the
ratio bound is meaningless at a zero coordinate). -/
theorem size_policy_zero_output_counterexample :
    size_policy NVIDIA_VIDEO_NOISE_REMOVAL 10000 1 = (1920, 0)
    ∧ ¬ (1 ≤ (size_policy NVIDIA_VIDEO_NOISE_REMOVAL 10000 1).2) := by
  have h := resize_eval 10000 1 (by norm_num) (by norm_num)
  rw [size_policy, if_pos rfl, h]
  refine ⟨by decide, by decide⟩

/-- Claim C4, amended: for every provider and every input with both
coordinates ≥ 1, the policy is the identity for non-NVIDIA providers; for
the NVIDIA provider the dominant coordinate lies in the provider's clamp
range ([142, 1920] for the width when width > height, [80, 1080] for the
height otherwise) and the aspect ratio is preserved up to rounding of the
non-dominant coordinate: |h'/w' - h/w| ≤ 1/(2w') when width is dominant and
|w'/h' - w/h| ≤ 1/(2h') otherwise.  (The non-dominant output coordinate can
round to 0 at extreme aspect ratios, so the original "both ≥ 1" and the
bound 1/min(w', h') on the width-over-height ratio do not hold.) -/
theorem size_policy_range_and_aspect :
    ∀ p : Int, ∀ w h : Nat, 1 ≤ w → 1 ≤ h →
      (p ≠ NVIDIA_VIDEO_NOISE_REMOVAL → size_policy p w h = (w, h))
      ∧ (p = NVIDIA_VIDEO_NOISE_REMOVAL → h < w →
          142 ≤ (size_policy p w h).1 ∧ (size_policy p w h).1 ≤ 1920
          ∧ |((size_policy p w h).2 : ℚ) / ((size_policy p w h).1 : ℚ)
              - (h : ℚ) / (w : ℚ)| ≤ 1 / (2 * ((size_policy p w h).1 : ℚ)))
      ∧ (p = NVIDIA_VIDEO_NOISE_REMOVAL → w ≤ h →
          80 ≤ (size_policy p w h).2 ∧ (size_policy p w h).2 ≤ 1080
          ∧ |((size_policy p w h).1 : ℚ) / ((size_policy p w h).2 : ℚ)
              - (w : ℚ) / (h : ℚ)| ≤ 1 / (2 * ((size_policy p w h).2 : ℚ))) := by
  intro p w h hw hh
  refine ⟨?_, ?_, ?_⟩
  · intro hp
    rw [size_policy, if_neg hp]
  · intro hp hlt
    subst hp
    rw [size_policy, if_pos rfl, resize_width w h hlt]
    dsimp only
    refine ⟨le_clampNat _ _ _, clampNat_le _ _ _ (by norm_num), ?_⟩
    exact round_ratio_bound (clampNat w 142 1920) h w (by omega)
      (by have := le_clampNat w 142 1920; omega)
  · intro hp hle
    subst hp
    rw [size_policy, if_pos rfl, resize_height w h (not_lt.mpr hle)]
    dsimp only
    refine ⟨le_clampNat _ _ _, clampNat_le _ _ _ (by norm_num), ?_⟩
    exact round_ratio_bound (clampNat h 80 1080) w h (by omega)
      (by have := le_clampNat h 80 1080; omega)

theorem size_policy_range_and_aspect_witness :
    1 ≤ (1920 : Nat) ∧ 1080 < 1920
    ∧ 142 ≤ (size_policy 1 1920 1080).1 ∧ (size_policy 1 1920 1080).1 ≤ 1920 :=
  ⟨by norm_num, by norm_num,
    ((size_policy_range_and_aspect 1 1920 1080 (by norm_num) (by norm_num)).2.1
      rfl (by norm_num)).1,
    ((size_policy_range_and_aspect 1 1920 1080 (by norm_num) (by norm_num)).2.1
      rfl (by norm_num)).2.1⟩

/-! ### Claim C5 -/

/-- Claim C5 as stated is false at (7680, 7679): the first application of the
NVIDIA policy yields the square (1920, 1920) (round(1920·7679/7680) = 1920),
and the second application, now in the dominant-height branch, yields
(1080, 1080). -/
theorem size_policy_idempotence_counterexample :
    size_policy NVIDIA_VIDEO_NOISE_REMOVAL 7680 7679 = (1920, 1920)
    ∧ size_policy NVIDIA_VIDEO_NOISE_REMOVAL
        (size_policy NVIDIA_VIDEO_NOISE_REMOVAL 7680 7679).1
        (size_policy NVIDIA_VIDEO_NOISE_REMOVAL 7680 7679).2 = (1080, 1080)
    ∧ size_policy NVIDIA_VIDEO_NOISE_REMOVAL
        (size_policy NVIDIA_VIDEO_NOISE_REMOVAL 7680 7679).1
        (size_policy NVIDIA_VIDEO_NOISE_REMOVAL 7680 7679).2
      ≠ size_policy NVIDIA_VIDEO_NOISE_REMOVAL 7680 7679 := by
  have h1 : size_policy NVIDIA_VIDEO_NOISE_REMOVAL 7680 7679 = (1920, 1920) := by
    rw [size_policy, if_pos rfl, resize_eval 7680 7679 (by norm_num) (by norm_num)]
    decide
  have h2 : size_policy NVIDIA_VIDEO_NOISE_REMOVAL 1920 1920 = (1080, 1080) := by
    rw [size_policy, if_pos rfl, resize_eval 1920 1920 (by norm_num) (by norm_num)]
    decide
  refine ⟨h1, ?_, ?_⟩
  · rw [h1]
    exact h2
  · rw [h1]
    rw [show ((1920, 1920) : Nat × Nat).1 = 1920 from rfl,
      show ((1920, 1920) : Nat × Nat).2 = 1920 from rfl, h2]
    decide

/-- Claim C5, amended: the size policy is idempotent for every provider and
every input with both coordinates ≥ 1, except when the NVIDIA policy's first
application yields the square (1920, 1920) (which happens only for
width-dominant inputs wider than the clamp with width − height ≤ width/3840);
in that excluded case the second application yields (1080, 1080). -/
theorem size_policy_idempotent :
    ∀ p : Int, ∀ w h : Nat, 1 ≤ w → 1 ≤ h →
      (p = NVIDIA_VIDEO_NOISE_REMOVAL → size_policy p w h ≠ (1920, 1920)) →
      size_policy p (size_policy p w h).1 (size_policy p w h).2 = size_policy p w h := by
  intro p w h hw hh hsq
  by_cases hp : p = NVIDIA_VIDEO_NOISE_REMOVAL
  · subst hp
    have hsq2 := hsq rfl
    unfold size_policy at hsq2 ⊢
    rw [if_pos rfl] at hsq2 ⊢
    exact resize_idem w h hw hh hsq2
  · simp [size_policy, hp]

theorem size_policy_idempotent_witness :
    1 ≤ (640 : Nat) ∧ 1 ≤ (360 : Nat)
    ∧ size_policy 1 (size_policy 1 640 360).1 (size_policy 1 640 360).2
        = size_policy 1 640 360 :=
  ⟨by norm_num, by norm_num,
    size_policy_idempotent 1 640 360 (by norm_num) (by norm_num)
      (fun _ => by
        rw [size_policy,
          if_pos (show (1 : Int) = NVIDIA_VIDEO_NOISE_REMOVAL from rfl),
          resize_eval 640 360 (by norm_num) (by norm_num)]
        decide)⟩

/-! ### Backend state, vendor oracles and events

The per-instance GPU/compute resources of the NVIDIA backend
(fields of video_denoising_instance, src header + 303-456). -/

/-- A GPU texture: only its dimensions matter to the model. -/
structure Texture where
  width : Nat
  height : Nat
deriving DecidableEq

/-- The NVIDIA backend's slice of the instance state: the two buffer
textures, the two cross-API image descriptors (represented by their width
field, 0 meaning "not allocated", exactly the check the source performs),
and whether the three vendor SDK singleton references are held. -/
structure BackendState where
  nvidia_input : Option Texture
  nvidia_output : Option Texture
  cvi_input_width : Nat
  cvi_output_width : Nat
  nvcuda : Bool
  nvcvi : Bool
  nvvfx : Bool
deriving DecidableEq

/-- Observable actions of the backend, for stating which vendor/GPU calls a
code path performs.  The denoise constructor stands for the vendor
noise-removal invocation (running the NvVFX feature); the source never
emits it — see claim C1. -/
inductive Event where
  | unmapInput
  | deallocInput
  | createInput (w h : Nat)
  | initInput
  | mapInput
  | unmapOutput
  | deallocOutput
  | createOutput (w h : Nat)
  | initOutput
  | mapOutput
  | copyToInput (srcW srcH : Nat)
  | denoise
  | negotiateSize (w h : Nat)
  | captureInput (w h : Nat)
  | resetInput
  | draw (w h : Nat)
  | logError
deriving DecidableEq

instance {ε α : Type} [DecidableEq ε] [DecidableEq α] : DecidableEq (Except ε α) := fun x y =>
  match x, y with
  | .error a, .error b =>
    if h : a = b then .isTrue (h ▸ rfl) else .isFalse (fun hc => h (Except.error.inj hc))
  | .error _, .ok _ => .isFalse (fun hc => Except.noConfusion hc)
  | .ok _, .error _ => .isFalse (fun hc => Except.noConfusion hc)
  | .ok a, .ok b =>
    if h : a = b then .isTrue (h ▸ rfl) else .isFalse (fun hc => h (Except.ok.inj hc))

/-- Errors modelling the exceptions thrown by the source: the
runtime_error thrown on surface (re)allocation failure in process
(src 391/407/413/...), the runtime_error thrown on unmap failure in unload
(src 330/339), and the "Missing Conversion Entry" runtime_error of
denoise_provider_to_string (src 61). -/
inductive Err where
  | surfaceError
  | unmapError
  | missingConversion
deriving DecidableEq

/-- Success/failure results of the fallible vendor calls made by
process_nvidia_noise_removal. -/
structure VendorOracle where
  unmap_input : Bool
  init_input : Bool
  map_input : Bool
  unmap_output : Bool
  init_output : Bool
  map_output : Bool
deriving DecidableEq

/-- The recreation condition of src 383-384 / 418-419: the buffer is absent
or its dimensions differ from the negotiated size. -/
def tex_needs_recreate (t : Option Texture) (size : Nat × Nat) : Bool :=
  match t with
  | none => true
  | some tex => tex.width != size.1 || tex.height != size.2

/-- denoise_provider_to_string (src 55-63): succeeds only for the NVIDIA
provider, throws a "Missing Conversion Entry" error for every other value.
The produced string itself is irrelevant to the model. -/
def denoise_provider_to_string (p : Int) : Except Err Unit :=
  if p = NVIDIA_VIDEO_NOISE_REMOVAL then .ok () else .error .missingConversion

/-- The input-buffer block of process_nvidia_noise_removal (src 382-415):
if the input texture is absent or mismatched, unmap and deallocate the
prior cross-API mapping if present, recreate the texture at the negotiated
size, initialize the cross-API image from it and map it.  Any vendor
failure throws.  (State mutated before a throw is not tracked.) -/
def ensure_nvidia_input (o : VendorOracle) (size : Nat × Nat) (b : BackendState) :
    Except Err (BackendState × List Event) :=
  if tex_needs_recreate b.nvidia_input size then
    if b.cvi_input_width != 0 && !o.unmap_input then
      .error .surfaceError
    else if !o.init_input then
      .error .surfaceError
    else if !o.map_input then
      .error .surfaceError
    else
      .ok ({ b with nvidia_input := some ⟨size.1, size.2⟩, cvi_input_width := size.1 },
        (if b.cvi_input_width != 0 then [Event.unmapInput, Event.deallocInput] else [])
          ++ [Event.createInput size.1 size.2, Event.initInput, Event.mapInput])
  else
    .ok (b, [])

/-- The output-buffer block of process_nvidia_noise_removal (src 417-450),
symmetric to the input block. -/
def ensure_nvidia_output (o : VendorOracle) (size : Nat × Nat) (b : BackendState) :
    Except Err (BackendState × List Event) :=
  if tex_needs_recreate b.nvidia_output size then
    if b.cvi_output_width != 0 && !o.unmap_output then
      .error .surfaceError
    else if !o.init_output then
      .error .surfaceError
    else if !o.map_output then
      .error .surfaceError
    else
      .ok ({ b with nvidia_output := some ⟨size.1, size.2⟩, cvi_output_width := size.1 },
        (if b.cvi_output_width != 0 then [Event.unmapOutput, Event.deallocOutput] else [])
          ++ [Event.createOutput size.1 size.2, Event.initOutput, Event.mapOutput])
  else
    .ok (b, [])

/-- process_nvidia_noise_removal (src 376-456): ensure the input buffer,
ensure the output buffer, copy the captured input texture into the backend
input buffer, and return the backend output texture.  The vendor handles
are dereferenced by the source without a check; process is modelled on
states holding them, which the reachable render path guarantees.  Note the
absence of any vendor denoise invocation between the copy and the return:
no Event.denoise is ever emitted. -/
def process_nvidia_noise_removal (o : VendorOracle) (size : Nat × Nat)
    (input : Texture) (b : BackendState) :
    Except Err (BackendState × Texture × List Event) :=
  match ensure_nvidia_input o size b with
  | .error e => .error e
  | .ok (b1, ev1) =>
    match ensure_nvidia_output o size b1 with
    | .error e => .error e
    | .ok (b2, ev2) =>
      .ok (b2, b2.nvidia_output.getD ⟨0, 0⟩,
        ev1 ++ ev2 ++ [Event.copyToInput input.width input.height])

/-- Success/failure results of the two unmap calls made by
unload_nvidia_noise_removal. -/
structure UnloadOracle where
  unmap_input : Bool
  unmap_output : Bool
deriving DecidableEq

/-- unload_nvidia_noise_removal (src 318-351): enter the CUDA context
(dereferencing _nvcuda — none models the null dereference after the
handles were already released), unmap and deallocate each cross-API image
that is actually allocated (width ≠ 0), logging and throwing on unmap
failure, then release the textures and the three SDK references. -/
def unload_nvidia_noise_removal (o : UnloadOracle) (b : BackendState) :
    Option (Except Err (BackendState × List Event)) :=
  if !b.nvcuda then
    none
  else if b.cvi_input_width != 0 && !b.nvcvi then
    none
  else if b.cvi_input_width != 0 && !o.unmap_input then
    some (.error .unmapError)
  else if b.cvi_output_width != 0 && !b.nvcvi then
    none
  else if b.cvi_output_width != 0 && !o.unmap_output then
    some (.error .unmapError)
  else
    some (.ok (⟨none, none, 0, 0, false, false, false⟩,
      (if b.cvi_input_width != 0 then [Event.unmapInput, Event.deallocInput] else [])
        ++ (if b.cvi_output_width != 0 then [Event.unmapOutput, Event.deallocOutput] else [])))

/-- load_nvidia_noise_removal (src 304-316), success path: acquire the three
vendor SDK singleton references; no per-frame surfaces are touched.  A
failing getter throws and is handled at the call site via the task oracle. -/
def load_nvidia_noise_removal (b : BackendState) : BackendState :=
  { b with nvcuda := true, nvcvi := true, nvvfx := true }

/-! ### Instance state, render tick and provider switching -/

/-- The mutable fields of video_denoising_instance (src 68-85): negotiated
size, ready flag, current provider, pending switch-task target (single
slot; a newer switch replaces it, src 254-263), the input render target's
current dimensions, the published output texture and the backend state. -/
structure InstanceState where
  size : Nat × Nat
  provider_ready : Bool
  provider : Int
  provider_task : Option Int
  input_size : Nat × Nat
  output : Option Texture
  backend : BackendState
deriving DecidableEq

/-- The state established by the constructor (src 68-85): 1×1 sizes, not
ready, Automatic provider, no pending task, no resources. -/
def initial_state : InstanceState :=
  ⟨(1, 1), false, AUTOMATIC, none, (1, 1), none, ⟨none, none, 0, 0, false, false, false⟩⟩

/-- Per-frame environment read from the host by video_render: whether a
filter target (or parent) exists, the upstream base width/height, whether
obs_source_process_filter_begin succeeds, and the vendor-call results. -/
structure RenderEnv where
  target : Bool
  width : Nat
  height : Nat
  begin_ok : Bool
  oracle : VendorOracle
deriving DecidableEq

/-- What the host observes from one video_render call: the filter was
skipped (obs_source_skip_video_filter), a frame of the given size was
drawn, or an exception escaped video_render into the host. -/
inductive RenderOutcome where
  | skip
  | drawn (w h : Nat)
  | raised (e : Err)
deriving DecidableEq

/-- video_render (src 139-240).  Early skip when not ready / no target /
zero upstream size (src 154-157); size negotiation per provider
(src 162-173); input capture inside the host filter transaction
(src 176-201, skip when begin fails); provider processing (src 204-221,
null output logs — throwing from denoise_provider_to_string for non-NVIDIA
providers — and skips); input reset and draw (src 226-239).  video_render
contains no exception handler, so a thrown error is returned as a raised
outcome reaching the host. -/
def video_render (env : RenderEnv) (st : InstanceState) :
    InstanceState × RenderOutcome × List Event :=
  if !st.provider_ready || !env.target || env.width == 0 || env.height == 0 then
    (st, .skip, [])
  else
    let sizeEvents : (Nat × Nat) × List Event :=
      if st.provider = NVIDIA_VIDEO_NOISE_REMOVAL then
        (resize_nvidia_noise_removal env.width env.height,
          [Event.negotiateSize env.width env.height])
      else ((env.width, env.height), [])
    let st1 := { st with size := sizeEvents.1 }
    if !env.begin_ok then
      (st1, .skip, sizeEvents.2)
    else
      let st2 := { st1 with input_size := (env.width, env.height) }
      let evs := sizeEvents.2 ++ [Event.captureInput env.width env.height]
      if st2.provider = NVIDIA_VIDEO_NOISE_REMOVAL then
        match process_nvidia_noise_removal env.oracle st2.size
            ⟨env.width, env.height⟩ st2.backend with
        | .error e => (st2, .raised e, evs)
        | .ok (b, tex, pev) =>
          let st3 := { st2 with backend := b, output := some tex, input_size := (1, 1) }
          (st3, .drawn st3.size.1 st3.size.2,
            evs ++ pev ++ [Event.resetInput, Event.draw st3.size.1 st3.size.2])
      else
        let st3 := { st2 with output := none }
        match denoise_provider_to_string st3.provider with
        | .error e => (st3, .raised e, evs)
        | .ok _ => (st3, .skip, evs ++ [Event.logError])

/-- The compiled-in provider priority list consulted when resolving
Automatic (src 51-53). -/
def provider_priority : List Int := [NVIDIA_VIDEO_NOISE_REMOVAL]

/-- video_denoising_factory::is_provider_available (src 545-555): true only
for the NVIDIA provider and only when its SDK loaded at factory init. -/
def is_provider_available (nvidia_available : Bool) (p : Int) : Bool :=
  if p = NVIDIA_VIDEO_NOISE_REMOVAL then nvidia_available else false

/-- The Automatic-resolution loop of update (src 112-120): the first
available provider from the priority list, or Automatic itself when none
is available. -/
def resolve_provider (nvidia_available : Bool) (p : Int) : Int :=
  if p = AUTOMATIC then
    match provider_priority.find? (fun v => is_provider_available nvidia_available v) with
    | some v => v
    | none => AUTOMATIC
  else p

/-- switch_provider (src 246-264): cancel any pending switch task
(best-effort pop of the single slot) and enqueue a new task carrying the
target provider. -/
def switch_provider (p : Int) (st : InstanceState) : InstanceState :=
  { st with provider_task := some p }

/-- update (src 109-125): read the requested provider from the settings
(an arbitrary integer via static_cast), resolve Automatic, and schedule a
switch only when the result differs from the current provider. -/
def update (nvidia_available : Bool) (setting : Int) (st : InstanceState) : InstanceState :=
  let provider := resolve_provider nvidia_available setting
  if provider ≠ st.provider then switch_provider provider st else st

/-- Success/failure results of the vendor calls a switch task may make. -/
structure TaskOracle where
  load : Bool
  unmap_input : Bool
  unmap_output : Bool
deriving DecidableEq

/-- task_switch_provider (src 266-301), run to completion under the
provider mutex: clear the ready flag, load the new provider (only the
NVIDIA case does anything; a failing load throws, aborting the task — the
exception surfaces to the worker pool, whose logging boundary is modelled
from the spec since the pool code is not under src/), unload the previous
provider (a throwing unload likewise aborts the task; a null-handle
dereference inside unload is the none outcome), then publish the new
provider and set the ready flag.  The completed task's handle is modelled
as cleared. -/
def task_switch_provider (o : TaskOracle) (st : InstanceState) :
    Option (InstanceState × List Event) :=
  match st.provider_task with
  | none => some (st, [])
  | some p =>
    let st0 : InstanceState := { st with provider_ready := false, provider_task := none }
    if p = NVIDIA_VIDEO_NOISE_REMOVAL ∧ o.load = false then
      some (st0, [Event.logError])
    else
      let st1 : InstanceState :=
        if p = NVIDIA_VIDEO_NOISE_REMOVAL then
          { st0 with backend := load_nvidia_noise_removal st0.backend }
        else st0
      match (if st1.provider = NVIDIA_VIDEO_NOISE_REMOVAL then
               unload_nvidia_noise_removal ⟨o.unmap_input, o.unmap_output⟩ st1.backend
             else some (.ok (st1.backend, []))) with
      | none => none
      | some (.error _) => some (st1, [Event.logError])
      | some (.ok (b, evs)) =>
        some ({ st1 with backend := b, provider := p, provider_ready := true }, evs)

/-- All three vendor SDK references are held (what load establishes). -/
def backend_fully_loaded (b : BackendState) : Prop :=
  b.nvcuda = true ∧ b.nvcvi = true ∧ b.nvvfx = true

instance (b : BackendState) : Decidable (backend_fully_loaded b) := by
  unfold backend_fully_loaded
  infer_instance

/-- Instance states reachable from construction through the public
operations, with schema-valid settings values (0 = Automatic, 1 = NVIDIA)
and the NVIDIA provider available (the factory registers the filter type —
hence creates instances — only when a provider is available, src 487-491). -/
inductive Reachable : InstanceState → Prop where
  | init : Reachable initial_state
  | update (st : InstanceState) (s : Int) : Reachable st → (s = 0 ∨ s = 1) →
      Reachable (update true s st)
  | task (st st2 : InstanceState) (o : TaskOracle) (evs : List Event) :
      Reachable st → task_switch_provider o st = some (st2, evs) → Reachable st2
  | render (st : InstanceState) (env : RenderEnv) : Reachable st →
      Reachable (video_render env st).1

/-! ### Shared facts about the render tick -/

/-- The early-skip guard of video_render (src 154-157): when the provider is
not ready, there is no target, or the upstream size is degenerate, the state
is untouched, the host is told to skip, and no event occurs. -/
theorem render_skip_early (env : RenderEnv) (st : InstanceState)
    (h : st.provider_ready = false ∨ env.target = false
        ∨ env.width = 0 ∨ env.height = 0) :
    video_render env st = (st, RenderOutcome.skip, []) := by
  unfold video_render
  rw [if_pos]
  rcases h with h | h | h | h <;> simp [h]

theorem ensure_nvidia_input_handles (o : VendorOracle) (sz : Nat × Nat)
    (b : BackendState) (r : BackendState × List Event)
    (h : ensure_nvidia_input o sz b = .ok r) :
    r.1.nvcuda = b.nvcuda ∧ r.1.nvcvi = b.nvcvi ∧ r.1.nvvfx = b.nvvfx := by
  unfold ensure_nvidia_input at h
  split at h
  · split at h
    · exact Except.noConfusion h
    · split at h
      · exact Except.noConfusion h
      · split at h
        · exact Except.noConfusion h
        · injection h with h2
          subst h2
          exact ⟨rfl, rfl, rfl⟩
  · injection h with h2
    subst h2
    exact ⟨rfl, rfl, rfl⟩

theorem ensure_nvidia_output_handles (o : VendorOracle) (sz : Nat × Nat)
    (b : BackendState) (r : BackendState × List Event)
    (h : ensure_nvidia_output o sz b = .ok r) :
    r.1.nvcuda = b.nvcuda ∧ r.1.nvcvi = b.nvcvi ∧ r.1.nvvfx = b.nvvfx := by
  unfold ensure_nvidia_output at h
  split at h
  · split at h
    · exact Except.noConfusion h
    · split at h
      · exact Except.noConfusion h
      · split at h
        · exact Except.noConfusion h
        · injection h with h2
          subst h2
          exact ⟨rfl, rfl, rfl⟩
  · injection h with h2
    subst h2
    exact ⟨rfl, rfl, rfl⟩

theorem process_handles (o : VendorOracle) (sz : Nat × Nat) (input : Texture)
    (b b2 : BackendState) (tex : Texture) (evs : List Event)
    (h : process_nvidia_noise_removal o sz input b = .ok (b2, tex, evs)) :
    b2.nvcuda = b.nvcuda ∧ b2.nvcvi = b.nvcvi ∧ b2.nvvfx = b.nvvfx := by
  unfold process_nvidia_noise_removal at h
  rcases h1 : ensure_nvidia_input o sz b with e | ⟨b1, ev1⟩
  · rw [h1] at h
    exact Except.noConfusion h
  · rw [h1] at h
    dsimp only at h
    rcases h2 : ensure_nvidia_output o sz b1 with e | ⟨bb, ev2⟩
    · rw [h2] at h
      exact Except.noConfusion h
    · rw [h2] at h
      dsimp only at h
      injection h with h3
      have hbb : bb = b2 := congrArg (fun t => t.1) h3
      subst hbb
      have e1 := ensure_nvidia_input_handles o sz b (b1, ev1) h1
      have e2 := ensure_nvidia_output_handles o sz b1 (bb, ev2) h2
      exact ⟨e2.1.trans e1.1, e2.2.1.trans e1.2.1, e2.2.2.trans e1.2.2⟩

/-- video_render never changes the provider, the ready flag, the pending
task handle, or the vendor SDK references. -/
theorem video_render_preserves_control (env : RenderEnv) (st : InstanceState) :
    (video_render env st).1.provider = st.provider
    ∧ (video_render env st).1.provider_ready = st.provider_ready
    ∧ (video_render env st).1.provider_task = st.provider_task
    ∧ (video_render env st).1.backend.nvcuda = st.backend.nvcuda
    ∧ (video_render env st).1.backend.nvcvi = st.backend.nvcvi
    ∧ (video_render env st).1.backend.nvvfx = st.backend.nvvfx := by
  unfold video_render
  split
  · exact ⟨rfl, rfl, rfl, rfl, rfl, rfl⟩
  · dsimp only
    split
    · exact ⟨rfl, rfl, rfl, rfl, rfl, rfl⟩
    · split
      · split
        · exact ⟨rfl, rfl, rfl, rfl, rfl, rfl⟩
        · next b tex pev heq =>
            have hh := process_handles _ _ _ _ _ _ _ heq
            exact ⟨rfl, rfl, rfl, hh.1, hh.2.1, hh.2.2⟩
      · split
        · exact ⟨rfl, rfl, rfl, rfl, rfl, rfl⟩
        · exact ⟨rfl, rfl, rfl, rfl, rfl, rfl⟩

/-! ### Claim C1 -/

/-- Claim C1 concerns a code bug: at a fresh NVIDIA backend with every
vendor call succeeding and negotiated size 1920×1080, process reallocates
both surfaces at the negotiated size, copies the caller's input, and
returns the backend output texture — but performs no denoise invocation at
all (no Event.denoise in the trace): the source creates no vendor feature
and never runs one, so the returned surface is never written by the
provider, contradicting the claimed "runs the denoise step", and
ErrNoResult is unreachable from this path since the returned handle is
never null. -/
theorem process_reallocates_and_copies_but_never_denoises :
    process_nvidia_noise_removal ⟨true, true, true, true, true, true⟩ (1920, 1080)
        ⟨1920, 1080⟩ ⟨none, none, 0, 0, true, true, true⟩
      = .ok (⟨some ⟨1920, 1080⟩, some ⟨1920, 1080⟩, 1920, 1920, true, true, true⟩,
          ⟨1920, 1080⟩,
          [Event.createInput 1920 1080, Event.initInput, Event.mapInput,
            Event.createOutput 1920 1080, Event.initOutput, Event.mapOutput,
            Event.copyToInput 1920 1080])
    ∧ Event.denoise ∉
        [Event.createInput 1920 1080, Event.initInput, Event.mapInput,
          Event.createOutput 1920 1080, Event.initOutput, Event.mapOutput,
          Event.copyToInput 1920 1080] := by
  decide

/-! ### Claim C2 -/

/-- Claim C2 concerns a code bug: video_render contains no exception
handler, so a surface-reallocation failure thrown inside process (here: the
stale input mapping fails to unmap while resizing 1280×720 → 1920×1080)
escapes video_render into the host instead of becoming a skip-filter
decision. -/
theorem video_render_propagates_surface_error :
    (video_render
        ⟨true, 1920, 1080, true, ⟨false, true, true, true, true, true⟩⟩
        ⟨(1, 1), true, NVIDIA_VIDEO_NOISE_REMOVAL, none, (1, 1), none,
          ⟨some ⟨1280, 720⟩, none, 1280, 0, true, true, true⟩⟩).2.1
      = RenderOutcome.raised Err.surfaceError
    ∧ (video_render
        ⟨true, 1920, 1080, true, ⟨false, true, true, true, true, true⟩⟩
        ⟨(1, 1), true, NVIDIA_VIDEO_NOISE_REMOVAL, none, (1, 1), none,
          ⟨some ⟨1280, 720⟩, none, 1280, 0, true, true, true⟩⟩).2.1
      ≠ RenderOutcome.skip := by
  have hsz : resize_nvidia_noise_removal 1920 1080 = (1920, 1080) := by
    rw [resize_eval 1920 1080 (by norm_num) (by norm_num)]
    decide
  constructor <;> simp only [video_render, hsz] <;> decide

/-! ### Claim C9 -/

/-- Claim C9: whenever the ready flag is false, the target is absent, or the
upstream base width or height is zero, video_render leaves the state
untouched, tells the host to skip, and performs no backend call at all — in
particular no size negotiation and no process call (the event trace is
empty). -/
theorem video_render_early_skip_no_backend_call (env : RenderEnv) (st : InstanceState)
    (h : st.provider_ready = false ∨ env.target = false
        ∨ env.width = 0 ∨ env.height = 0) :
    video_render env st = (st, RenderOutcome.skip, [])
    ∧ (∀ w h2 : Nat, Event.negotiateSize w h2 ∉ (video_render env st).2.2)
    ∧ (∀ w h2 : Nat, Event.copyToInput w h2 ∉ (video_render env st).2.2) := by
  have he := render_skip_early env st h
  refine ⟨he, ?_, ?_⟩ <;> intro w h2 <;> rw [he] <;> simp

theorem video_render_early_skip_no_backend_call_witness :
    ((0 : Nat) = 0)
    ∧ video_render ⟨true, 0, 1080, true, ⟨true, true, true, true, true, true⟩⟩ initial_state
        = (initial_state, RenderOutcome.skip, []) :=
  ⟨rfl,
    (video_render_early_skip_no_backend_call
      ⟨true, 0, 1080, true, ⟨true, true, true, true, true, true⟩⟩ initial_state
      (Or.inr (Or.inr (Or.inl rfl)))).1⟩

/-! ### Claim C10 -/

/-- Claim C10: when the requested provider, after resolving Automatic
against the priority list, equals the instance's current provider, update
does nothing — no switch task is scheduled and the whole instance state
(current backend, ready flag, pending task handle included) is unchanged;
consequently any sequence of such update calls leaves the state unchanged. -/
theorem update_same_provider_noop (avail : Bool) (s : Int) (st : InstanceState)
    (h : resolve_provider avail s = st.provider) :
    update avail s st = st
    ∧ ∀ n : Nat, (update avail s)^[n] st = st := by
  have h1 : update avail s st = st := by
    unfold update
    simp [h]
  refine ⟨h1, ?_⟩
  intro n
  induction n with
  | zero => rfl
  | succ k ih => rw [Function.iterate_succ_apply', ih, h1]

theorem update_same_provider_noop_witness :
    resolve_provider true 1
        = (⟨(1, 1), true, 1, none, (1, 1), none,
            ⟨none, none, 0, 0, true, true, true⟩⟩ : InstanceState).provider
    ∧ update true 1
        ⟨(1, 1), true, 1, none, (1, 1), none, ⟨none, none, 0, 0, true, true, true⟩⟩
      = ⟨(1, 1), true, 1, none, (1, 1), none, ⟨none, none, 0, 0, true, true, true⟩⟩ :=
  ⟨by decide,
    (update_same_provider_noop true 1
      ⟨(1, 1), true, 1, none, (1, 1), none, ⟨none, none, 0, 0, true, true, true⟩⟩
      (by decide)).1⟩

/-! ### Behaviour of the switch task -/

/-- A task slot holding no pending switch runs nothing. -/
theorem task_none (o : TaskOracle) (st : InstanceState) (h : st.provider_task = none) :
    task_switch_provider o st = some (st, []) := by
  unfold task_switch_provider
  rw [h]

/-- A failing NVIDIA load aborts the task after clearing the ready flag:
provider and backend are untouched and the failure is logged. -/
theorem task_load_fail (o : TaskOracle) (st : InstanceState)
    (h : st.provider_task = some NVIDIA_VIDEO_NOISE_REMOVAL) (hl : o.load = false) :
    task_switch_provider o st
      = some ({ st with provider_ready := false, provider_task := none },
          [Event.logError]) := by
  unfold task_switch_provider
  rw [h]
  dsimp only
  rw [if_pos ⟨rfl, hl⟩]

/-- A successful NVIDIA load while the current provider is Automatic (or any
non-NVIDIA value): no unload runs, the new backend is published and the
instance becomes ready. -/
theorem task_success_not_from_nvidia (o : TaskOracle) (st : InstanceState)
    (h : st.provider_task = some NVIDIA_VIDEO_NOISE_REMOVAL) (hl : o.load = true)
    (hpr : st.provider ≠ NVIDIA_VIDEO_NOISE_REMOVAL) :
    task_switch_provider o st
      = some ({ st with
                provider_task := none,
                backend := load_nvidia_noise_removal st.backend,
                provider := NVIDIA_VIDEO_NOISE_REMOVAL,
                provider_ready := true }, []) := by
  unfold task_switch_provider
  rw [h]
  dsimp only
  rw [if_neg (by simp [hl]), if_pos rfl, if_neg hpr]

/-- A successful NVIDIA load while the current provider is NVIDIA: the
(freshly re-referenced) backend is unloaded, then republished empty, and
the instance becomes ready. -/
theorem task_success_from_nvidia (o : TaskOracle) (st : InstanceState)
    (h : st.provider_task = some NVIDIA_VIDEO_NOISE_REMOVAL) (hl : o.load = true)
    (hui : o.unmap_input = true) (huo : o.unmap_output = true)
    (hpr : st.provider = NVIDIA_VIDEO_NOISE_REMOVAL) :
    task_switch_provider o st
      = some ({ st with
                provider_task := none,
                backend := ⟨none, none, 0, 0, false, false, false⟩,
                provider := NVIDIA_VIDEO_NOISE_REMOVAL,
                provider_ready := true },
          (if st.backend.cvi_input_width != 0
            then [Event.unmapInput, Event.deallocInput] else [])
          ++ (if st.backend.cvi_output_width != 0
            then [Event.unmapOutput, Event.deallocOutput] else [])) := by
  unfold task_switch_provider
  rw [h]
  dsimp only
  rw [if_neg (by simp [hl]), if_pos rfl, if_pos hpr]
  unfold unload_nvidia_noise_removal load_nvidia_noise_removal
  simp [hui, huo]

/-! ### Claim C6 -/

/-- Claim C6 as stated is false: an update whose settings integer lies
outside the schema (here 2, via the unchecked static_cast of src 112)
schedules a switch to provider 2, whose task performs no load at all yet
still publishes the provider and sets the ready flag — a reachable state
that is ready with no loaded backend. -/
theorem ready_without_loaded_backend_counterexample :
    task_switch_provider ⟨true, true, true⟩ (update true 2 initial_state)
      = some (⟨(1, 1), true, 2, none, (1, 1), none,
          ⟨none, none, 0, 0, false, false, false⟩⟩, [])
    ∧ ¬ backend_fully_loaded
        (⟨none, none, 0, 0, false, false, false⟩ : BackendState) := by
  decide

/-- The inductive invariant of the restricted state machine. -/
def StateInv (st : InstanceState) : Prop :=
  (st.provider = 0 ∨ st.provider = 1)
  ∧ (st.provider_task = none
      ∨ (st.provider_task = some 1 ∧ st.provider = 0))
  ∧ (st.provider = 1 → backend_fully_loaded st.backend)
  ∧ (st.provider_ready = true → st.provider = 1)

theorem resolve_schema (s : Int) (hs : s = 0 ∨ s = 1) : resolve_provider true s = 1 := by
  rcases hs with h | h <;> subst h <;> decide

theorem StateInv_update (st : InstanceState) (s : Int) (hs : s = 0 ∨ s = 1)
    (h : StateInv st) : StateInv (update true s st) := by
  have hr := resolve_schema s hs
  unfold update
  dsimp only
  rw [hr]
  obtain ⟨h1, h2, h3, h4⟩ := h
  by_cases hp : (1 : Int) ≠ st.provider
  · rw [if_pos hp]
    unfold switch_provider
    refine ⟨h1, ?_, h3, h4⟩
    right
    refine ⟨rfl, ?_⟩
    rcases h1 with h | h
    · exact h
    · exact absurd h.symm hp
  · rw [if_neg hp]
    exact ⟨h1, h2, h3, h4⟩

theorem StateInv_task (st st2 : InstanceState) (o : TaskOracle) (evs : List Event)
    (heq : task_switch_provider o st = some (st2, evs)) (h : StateInv st) :
    StateInv st2 := by
  obtain ⟨h1, h2, h3, h4⟩ := h
  cases htask : st.provider_task with
  | none =>
    rw [task_none o st htask] at heq
    injection heq with h5
    have hst : st = st2 := congrArg (fun t => t.1) h5
    subst hst
    exact ⟨h1, h2, h3, h4⟩
  | some p =>
    have hp1 : p = 1 ∧ st.provider = 0 := by
      rcases h2 with h2 | ⟨h2a, h2b⟩
      · rw [htask] at h2
        exact Option.noConfusion h2
      · rw [htask] at h2a
        injection h2a with hx
        exact ⟨hx, h2b⟩
    obtain ⟨hp, hpr⟩ := hp1
    subst hp
    have hprne : st.provider ≠ NVIDIA_VIDEO_NOISE_REMOVAL := by
      rw [hpr]
      decide
    cases hl : o.load with
    | false =>
      rw [task_load_fail o st htask hl] at heq
      injection heq with h5
      have hst : ({ st with provider_ready := false, provider_task := none }
          : InstanceState) = st2 := congrArg (fun t => t.1) h5
      subst hst
      refine ⟨h1, Or.inl rfl, h3, ?_⟩
      intro hcontra
      exact absurd hcontra (by simp)
    | true =>
      rw [task_success_not_from_nvidia o st htask hl hprne] at heq
      injection heq with h5
      have hst : ({ st with
                    provider_task := none,
                    backend := load_nvidia_noise_removal st.backend,
                    provider := NVIDIA_VIDEO_NOISE_REMOVAL,
                    provider_ready := true }
          : InstanceState) = st2 := congrArg (fun t => t.1) h5
      subst hst
      refine ⟨Or.inr rfl, Or.inl rfl, ?_, fun _ => rfl⟩
      intro _
      exact ⟨rfl, rfl, rfl⟩

theorem StateInv_render (st : InstanceState) (env : RenderEnv)
    (h : StateInv st) : StateInv ((video_render env st).1) := by
  obtain ⟨h1, h2, h3, h4⟩ := h
  obtain ⟨p1, p2, p3, p4, p5, p6⟩ := video_render_preserves_control env st
  refine ⟨?_, ?_, ?_, ?_⟩
  · rw [p1]
    exact h1
  · rw [p3, p1]
    exact h2
  · intro hp
    rw [p1] at hp
    have hload := h3 hp
    unfold backend_fully_loaded at hload ⊢
    rw [p4, p5, p6]
    exact hload
  · intro hready
    rw [p2] at hready
    rw [p1]
    exact h4 hready

theorem reachable_StateInv (st : InstanceState) (h : Reachable st) : StateInv st := by
  induction h with
  | init =>
    refine ⟨Or.inl rfl, Or.inl rfl, ?_, ?_⟩ <;> intro hc <;> exact absurd hc (by decide)
  | update st s hr hs ih => exact StateInv_update st s hs ih
  | task st st2 o evs hr heq ih => exact StateInv_task st st2 o evs heq ih
  | render st env hr ih => exact StateInv_render st env ih

/-- Claim C6, amended: in every instance state reachable through create,
schema-valid updates (settings integers 0 or 1; the unchecked static_cast
admits other integers, which break the invariant — see the counterexample),
switch-task completions and renders, with the NVIDIA provider available (a
precondition for the filter to be registered and instances to exist at
all): if the ready flag is true then the current provider is NVIDIA and its
backend holds all vendor SDK references, i.e. is fully loaded. -/
theorem reachable_ready_implies_loaded (st : InstanceState) (h : Reachable st)
    (hready : st.provider_ready = true) :
    st.provider = NVIDIA_VIDEO_NOISE_REMOVAL ∧ backend_fully_loaded st.backend := by
  obtain ⟨h1, h2, h3, h4⟩ := reachable_StateInv st h
  have hp := h4 hready
  refine ⟨?_, h3 hp⟩
  rw [hp]
  rfl

theorem reachable_ready_implies_loaded_witness :
    (⟨(1, 1), true, 1, none, (1, 1), none,
        ⟨none, none, 0, 0, true, true, true⟩⟩ : InstanceState).provider
        = NVIDIA_VIDEO_NOISE_REMOVAL
    ∧ backend_fully_loaded
        (⟨(1, 1), true, 1, none, (1, 1), none,
          ⟨none, none, 0, 0, true, true, true⟩⟩ : InstanceState).backend :=
  reachable_ready_implies_loaded
    ⟨(1, 1), true, 1, none, (1, 1), none, ⟨none, none, 0, 0, true, true, true⟩⟩
    (Reachable.task (update true 1 initial_state) _ ⟨true, true, true⟩ []
      (Reachable.update initial_state 1 Reachable.init (Or.inr rfl))
      (by decide))
    rfl

/-! ### Claim C7 -/

/-- Claim C7: when loading the new backend fails inside a provider-switch
task, the old provider and backend are left in place, the ready flag is
(cleared and) left false, the failure is logged (the exception surfaces to
the worker pool's logging boundary, modelled from the spec as the pool code
is not under src/), every subsequent frame is skipped while the flag stays
false, and a later switch task whose load (and unloads) succeed makes the
instance ready on the NVIDIA provider again. -/
theorem switch_load_failure_keeps_old_backend (st : InstanceState) (o : TaskOracle)
    (hl : o.load = false) (htask : st.provider_task = some NVIDIA_VIDEO_NOISE_REMOVAL) :
    task_switch_provider o st
      = some ({ st with provider_ready := false, provider_task := none },
          [Event.logError])
    ∧ (∀ env : RenderEnv,
        video_render env { st with provider_ready := false, provider_task := none }
          = ({ st with provider_ready := false, provider_task := none },
              RenderOutcome.skip, []))
    ∧ (∀ o2 : TaskOracle, o2.load = true → o2.unmap_input = true →
        o2.unmap_output = true →
        ∃ st2 evs2,
          task_switch_provider o2
              (switch_provider NVIDIA_VIDEO_NOISE_REMOVAL
                { st with provider_ready := false, provider_task := none })
            = some (st2, evs2)
          ∧ st2.provider_ready = true
          ∧ st2.provider = NVIDIA_VIDEO_NOISE_REMOVAL) := by
  refine ⟨task_load_fail o st htask hl, ?_, ?_⟩
  · intro env
    exact render_skip_early env _ (Or.inl rfl)
  · intro o2 hl2 hui huo
    by_cases hpr : ({ st with provider_ready := false, provider_task := none }
        : InstanceState).provider = NVIDIA_VIDEO_NOISE_REMOVAL
    · refine ⟨_, _, task_success_from_nvidia o2
        (switch_provider NVIDIA_VIDEO_NOISE_REMOVAL
          { st with provider_ready := false, provider_task := none })
        rfl hl2 hui huo hpr, rfl, rfl⟩
    · refine ⟨_, _, task_success_not_from_nvidia o2
        (switch_provider NVIDIA_VIDEO_NOISE_REMOVAL
          { st with provider_ready := false, provider_task := none })
        rfl hl2 hpr, rfl, rfl⟩

theorem switch_load_failure_keeps_old_backend_witness :
    TaskOracle.load ⟨false, true, true⟩ = false
    ∧ (⟨(1, 1), true, 1, some 1, (1, 1), none,
        ⟨none, none, 0, 0, true, true, true⟩⟩ : InstanceState).provider_task
        = some NVIDIA_VIDEO_NOISE_REMOVAL
    ∧ task_switch_provider ⟨false, true, true⟩
        ⟨(1, 1), true, 1, some 1, (1, 1), none, ⟨none, none, 0, 0, true, true, true⟩⟩
      = some (⟨(1, 1), false, 1, none, (1, 1), none,
          ⟨none, none, 0, 0, true, true, true⟩⟩, [Event.logError]) :=
  ⟨rfl, rfl,
    (switch_load_failure_keeps_old_backend
      ⟨(1, 1), true, 1, some 1, (1, 1), none, ⟨none, none, 0, 0, true, true, true⟩⟩
      ⟨false, true, true⟩ rfl rfl).1⟩

/-! ### Claim C8 -/

/-- Claim C8 as stated is false: after a fully successful unload the three
SDK references are released, and a second unload immediately dereferences
the now-null _nvcuda handle to enter the CUDA context (src 322) — the none
outcome, undefined behaviour — rather than completing as a no-op. -/
theorem unload_after_unload_counterexample :
    unload_nvidia_noise_removal ⟨true, true⟩
        ⟨some ⟨1920, 1080⟩, some ⟨1920, 1080⟩, 1920, 1920, true, true, true⟩
      = some (.ok (⟨none, none, 0, 0, false, false, false⟩,
          [Event.unmapInput, Event.deallocInput, Event.unmapOutput,
            Event.deallocOutput]))
    ∧ unload_nvidia_noise_removal ⟨true, true⟩
        ⟨none, none, 0, 0, false, false, false⟩ = none := by
  decide

/-- Claim C8, amended: unload checks whether each per-frame resource
(cross-API image, texture) is actually allocated before releasing it, so —
while the CUDA handle is still held — an unload finding both cross-API
images unallocated performs no unmap or dealloc at all and completes
without error, releasing only the texture pointers and SDK references; the
idempotence stops there, because a repeat call after the references are
gone dereferences the null CUDA handle (see the counterexample). -/
theorem unload_checks_resources_before_release (o : UnloadOracle) (b : BackendState)
    (hcuda : b.nvcuda = true) (hin : b.cvi_input_width = 0)
    (hout : b.cvi_output_width = 0) :
    unload_nvidia_noise_removal o b
      = some (.ok (⟨none, none, 0, 0, false, false, false⟩, [])) := by
  unfold unload_nvidia_noise_removal
  simp [hcuda, hin, hout]

theorem unload_checks_resources_before_release_witness :
    BackendState.nvcuda ⟨none, none, 0, 0, true, true, true⟩ = true
    ∧ unload_nvidia_noise_removal ⟨true, true⟩ ⟨none, none, 0, 0, true, true, true⟩
      = some (.ok (⟨none, none, 0, 0, false, false, false⟩, [])) :=
  ⟨rfl,
    unload_checks_resources_before_release ⟨true, true⟩
      ⟨none, none, 0, 0, true, true, true⟩ rfl rfl rfl⟩

end VideoDenoising
